import Mathlib

/-!
Verification development for the depdiff retrieval and comparison engine.

The Python sources are shallowly embedded as Lean definitions:

* `src/depdiff/models.py` → `DependencyChange` and its derived classifiers;
* `src/src/depdiff/comparator.py` → `SourceComparator.compare_directories`
  and its helpers, over an explicit model of directory trees (`PyDir`) and
  files (`PyFile`); the standard-library `difflib.unified_diff` routine is a
  parameter (`UnifiedDiffFn`) of the comparator, constrained only where a
  claim depends on its documented behaviour;
* `src/src/depdiff/retriever.py` → `HybridRetriever.get_diff` and its
  helpers, with the external world (PyPI metadata HTTP client, `git`
  subprocesses, artifact download and archive extraction, the filesystem)
  modelled as a deterministic oracle `Env`, Python exceptions as
  `Except PyErr`, and the retriever's private temp-directory set threaded
  explicitly as `HRState`;
* `src/src/depdiff/parallel.py` → `ParallelRetriever.process_changes_parallel`
  over an explicit model of Python dict insertion (`dict_insert`) and of
  Python keyword-argument call semantics (`check_kwargs`), which is needed
  because `_process_single_package` passes a `temp_dir_tracker` keyword
  argument that `HybridRetriever.__init__` does not accept.

Worker tasks of the thread pool are independent (each builds a fresh
retriever and the per-future results are keyed by package name), so the
parallel run is modelled as the sequential evaluation of each task.
-/

namespace Depdiff

/-! ### Python string primitives used by the sources -/

/-- Characters stripped by Python's `str.strip` / `str.rstrip` with no
argument. -/
def pyIsSpace (c : Char) : Bool :=
  c = ' ' || c = '\t' || c = '\n' || c = '\r' || c = '\x0b' || c = '\x0c'

/-- Drop the longest suffix of characters satisfying `p` (the effect of
Python's `rstrip` family). Implemented structurally over the character
list so that closed terms reduce in the kernel. -/
def dropRightWhileChars (p : Char → Bool) (s : String) : String :=
  ⟨(s.data.reverse.dropWhile p).reverse⟩

/-- Python `s.rstrip()`. -/
def pyRstrip (s : String) : String :=
  dropRightWhileChars pyIsSpace s

/-- Python `s.strip()`. -/
def pyStrip (s : String) : String :=
  dropRightWhileChars pyIsSpace ⟨s.data.dropWhile pyIsSpace⟩

/-- Python `s.rstrip("\n")`. -/
def rstripNewline (s : String) : String :=
  dropRightWhileChars (· = '\n') s

/-- Python `s.rstrip("/")`. -/
def rstripSlash (s : String) : String :=
  dropRightWhileChars (· = '/') s

/-- Python `s.startswith(p)`. -/
def pyStartsWith (s p : String) : Bool :=
  p.data.isPrefixOf s.data

/-- Python `s.endswith(p)`. -/
def pyEndsWith (s p : String) : Bool :=
  p.data.isSuffixOf s.data

/-- Helper for `pySplitOnChar`: `acc` holds the current field reversed. -/
def pySplitOnCharAux (sep : Char) : List Char → List Char → List String
  | [], acc => [⟨acc.reverse⟩]
  | c :: cs, acc =>
    if c = sep then ⟨acc.reverse⟩ :: pySplitOnCharAux sep cs []
    else pySplitOnCharAux sep cs (c :: acc)

/-- Python `s.split(sep)` for a one-character separator (`split("\n")` in
`_resolve_tag`): splitting the empty string gives `[""]`. -/
def pySplitOnChar (sep : Char) (s : String) : List String :=
  pySplitOnCharAux sep s.data []

/-! ### Data model (`depdiff/models.py`) -/

/-- `DependencyChange` from `models.py`: a package name and the optional old
and new version strings. -/
structure DependencyChange where
  name : String
  old_version : Option String
  new_version : Option String
deriving DecidableEq, Repr

/-- `models.py`: `is_addition` — old absent, new present. -/
def DependencyChange.is_addition (c : DependencyChange) : Bool :=
  c.old_version.isNone && c.new_version.isSome

/-- `models.py`: `is_removal` — old present, new absent. -/
def DependencyChange.is_removal (c : DependencyChange) : Bool :=
  c.old_version.isSome && c.new_version.isNone

/-- `models.py`: `is_update` — both versions present. -/
def DependencyChange.is_update (c : DependencyChange) : Bool :=
  c.old_version.isSome && c.new_version.isSome

/-! ### Python exceptions -/

/-- The exception values the embedded code can raise or observe. -/
inductive PyErr where
  | typeError (msg : String)
  | valueError (msg : String)
  | calledProcessError (msg : String)
  | requestError (msg : String)
deriving DecidableEq, Repr

/-- Python `str(e)` as used in `f"Error: {e}"`. -/
def PyErr.message : PyErr → String
  | .typeError m => m
  | .valueError m => m
  | .calledProcessError m => m
  | .requestError m => m

/-! ### Files and directories, as the comparator observes them

`comparator.py` observes a file only through `open(...)` (which can raise)
and the decoded lines of `readlines()` (decoding with `errors="replace"`
never raises), plus the presence of a null byte in the first 8 KiB
(`_is_binary`). -/

/-- A file as observed by `SourceComparator`: either unreadable (every
`open` raises) or readable with a given null-byte classification of its
first 8 KiB and a given `readlines()` result. -/
inductive PyFile where
  | unreadable
  | readable (hasNullInHead : Bool) (lines : List String)
deriving DecidableEq, Repr

/-- `comparator.py` `_is_binary`: null byte in the first 8 KiB means binary;
an unreadable file is treated as binary. -/
def is_binary : PyFile → Bool
  | .unreadable => true
  | .readable hasNull _ => hasNull

/-- A directory tree as observed by `SourceComparator`: the set of relative
paths of the files under the root (`_collect_files` plus `relative_to`),
and the file found at each relative path. Relative paths are modelled as
their string rendering, ordered as Python orders paths when sorting. -/
structure PyDir where
  files : Finset String
  content : String → PyFile

/-- The type of `difflib.unified_diff` as the comparator calls it: old
lines, new lines, `fromfile`, `tofile` (with `lineterm=""`), returning the
produced diff lines. -/
def UnifiedDiffFn : Type :=
  List String → List String → String → String → List String

/-! ### `SourceComparator` (`src/src/depdiff/comparator.py`) -/

/-- `_generate_deletion_diff`: the two header lines, then (unless reading
raises) every old line `rstrip`-ped and prefixed with `-`. -/
def generate_deletion_diff (rel_path : String) (old_file : PyFile) : List String :=
  let headers := [s!"--- a/{rel_path}", "+++ /dev/null"]
  match old_file with
  | .unreadable => headers
  | .readable _ old_content => headers ++ old_content.map (fun l => "-" ++ pyRstrip l)

/-- `_generate_addition_diff`: the two header lines, then (unless reading
raises) every new line `rstrip`-ped and prefixed with `+`. -/
def generate_addition_diff (rel_path : String) (new_file : PyFile) : List String :=
  let headers := ["--- /dev/null", s!"+++ b/{rel_path}"]
  match new_file with
  | .unreadable => headers
  | .readable _ new_content => headers ++ new_content.map (fun l => "+" ++ pyRstrip l)

/-- `_generate_file_diff`: read both sides (an unreadable side makes the
whole `try` block return `[]`), run `difflib.unified_diff`, strip trailing
newlines from each produced line, and keep the result only if it has more
than the two header lines. -/
def generate_file_diff (ud : UnifiedDiffFn) (rel_path : String)
    (old_file new_file : PyFile) : List String :=
  match old_file, new_file with
  | .readable _ old_content, .readable _ new_content =>
    let diff_lines :=
      (ud old_content new_content (s!"a/{rel_path}") (s!"b/{rel_path}")).map rstripNewline
    if diff_lines.length > 2 then diff_lines else []
  | _, _ => []

/-- Python `sorted` on a set of relative paths. -/
def sortedPaths (s : Finset String) : List String :=
  s.sort (· ≤ ·)

/-- `compare_directories`: partition relative paths into deleted, added and
common; walk each group in sorted order extending one `diff_lines`
accumulator (skipping binary files, and for common files extending with the
possibly-empty per-file diff); join with newlines. -/
def compare_directories (ud : UnifiedDiffFn) (old_dir new_dir : PyDir) : String :=
  let old_rel_files := old_dir.files
  let new_rel_files := new_dir.files
  let deleted_files := old_rel_files \ new_rel_files
  let added_files := new_rel_files \ old_rel_files
  let common_files := old_rel_files ∩ new_rel_files
  let step1 := (sortedPaths deleted_files).foldl
    (fun acc rel_path =>
      if is_binary (old_dir.content rel_path) then acc
      else acc ++ generate_deletion_diff rel_path (old_dir.content rel_path)) []
  let step2 := (sortedPaths added_files).foldl
    (fun acc rel_path =>
      if is_binary (new_dir.content rel_path) then acc
      else acc ++ generate_addition_diff rel_path (new_dir.content rel_path)) step1
  let step3 := (sortedPaths common_files).foldl
    (fun acc rel_path =>
      if is_binary (old_dir.content rel_path) || is_binary (new_dir.content rel_path) then acc
      else acc ++ generate_file_diff ud rel_path
        (old_dir.content rel_path) (new_dir.content rel_path)) step2
  String.intercalate "\n" step3

/-! ### PyPI metadata (`src/src/depdiff/pypi/metadata.py`) -/

/-- `Info` from `metadata.py`: the chosen homepage/project URL (possibly the
empty string). -/
structure Info where
  url : String
deriving DecidableEq, Repr

/-- `PackageMetadata` from `metadata.py`: the info block and the list of
distribution-artifact URLs. -/
structure PackageMetadata where
  info : Info
  urls : List String
deriving DecidableEq, Repr

/-! ### The external world of `HybridRetriever`

`retriever.py` reaches outside the repository through the PyPI HTTP client,
`git` subprocesses, `requests.get`, `tarfile`/`zipfile` extraction and the
filesystem. These are modelled as one deterministic oracle. A `git tag
--list` run either produces stdout or raises `CalledProcessError` (the only
exception `subprocess.run(check=True, capture_output=True)` raises for a
failing command), which `_resolve_tag` catches; it is modelled as an
`Option String`. -/

structure Env where
  /-- `MetadataClient().get(package, version)`: metadata or a raised error. -/
  fetchMetadata : String → String → Except PyErr PackageMetadata
  /-- `git clone --filter=blob:none url dir`: success or a raised error. -/
  gitClone : String → Except PyErr Unit
  /-- `git tag --list` in a repo: stdout, or `none` for `CalledProcessError`. -/
  gitTagList : String → Option String
  /-- `git diff old new` in a repo: stdout or a raised error. -/
  gitDiff : String → String → String → Except PyErr String
  /-- `requests.get(url)` + `raise_for_status` + `write_bytes`. -/
  httpDownload : String → Except PyErr Unit
  /-- `tarfile.open(...).extractall` into the given directory. -/
  extractTar : String → Except PyErr Unit
  /-- `zipfile.ZipFile(...).extractall` into the given directory. -/
  extractZip : String → Except PyErr Unit
  /-- `[d for d in extract_path.iterdir() if d.is_dir()]`. -/
  extractedRootDirs : String → List String
  /-- The directory tree the comparator sees at a given path. -/
  dirOf : String → PyDir
  /-- `difflib.unified_diff`, as used by the shared `SourceComparator`. -/
  ud : UnifiedDiffFn

/-- The mutable state of one `HybridRetriever`: its private `_temp_dirs`
set, plus a counter making `tempfile.mkdtemp` names fresh. -/
structure HRState where
  temp_dirs : Finset String
  counter : Nat
deriving DecidableEq

/-- A fresh `HybridRetriever` state (`__init__` makes `_temp_dirs` empty). -/
def hrInit : HRState := ⟨∅, 0⟩

/-- `tempfile.mkdtemp(prefix=pre)`: a fresh directory name. -/
def mkdtemp (pre : String) (s : HRState) : String × HRState :=
  (pre ++ toString s.counter, { s with counter := s.counter + 1 })

/-! ### `HybridRetriever` (`src/src/depdiff/retriever.py`) -/

/-- `_extract_git_url`: empty URL means none; otherwise the first matching
known hosting platform wins and the URL is normalised to end in `.git`. -/
def git_platforms : List String :=
  ["https://github.com/", "https://gitlab.com/", "https://bitbucket.org/"]

/-- `_extract_git_url` from `retriever.py`. -/
def extract_git_url (metadata : PackageMetadata) : Option String :=
  let url := metadata.info.url
  if url = "" then none
  else
    match git_platforms.find? (fun platform => pyStartsWith url platform) with
    | some _ => some (if pyEndsWith url ".git" then url else rstripSlash url ++ ".git")
    | none => none

/-- `_clone_repo`: make a temp directory, add it to the retriever's own
`_temp_dirs` set *before* running `git clone`, then clone. -/
def clone_repo (env : Env) (git_url : String) (s : HRState) :
    Except PyErr String × HRState :=
  let (temp_dir, s₁) := mkdtemp "depdiff_git_" s
  let s₂ := { s₁ with temp_dirs := insert temp_dir s₁.temp_dirs }
  match env.gitClone git_url with
  | .ok _ => (.ok temp_dir, s₂)
  | .error e => (.error e, s₂)

/-- The tag set `_resolve_tag` builds: `result.stdout.strip().split("\n")`
(Python wraps this in `set(...)`, which only affects duplicates, not
membership). -/
def tagsOf (stdout : String) : List String :=
  pySplitOnChar '\n' (pyStrip stdout)

/-- `_resolve_tag` from `retriever.py`: on `CalledProcessError` return
`None`; otherwise exact match first, then the `v`-prefixed form, else
`None`. -/
def resolve_tag (tagListOutput : Option String) (version : String) : Option String :=
  match tagListOutput with
  | none => none
  | some stdout =>
    let tags := tagsOf stdout
    if version ∈ tags then some version
    else if ("v" ++ version) ∈ tags then some ("v" ++ version)
    else none

/-- The body of the `try` block of `_try_git_strategy` (exceptions
propagate out of it as `.error`): fetch metadata for the new version,
extract a Git URL, clone, resolve both tags, run `git diff`. `.ok none`
models the early `return None` paths. -/
def git_strategy_body (env : Env) (name oldV newV : String) (s : HRState) :
    Except PyErr (Option String) × HRState :=
  match env.fetchMetadata name newV with
  | .error e => (.error e, s)
  | .ok metadata =>
    match extract_git_url metadata with
    | none => (.ok none, s)
    | some git_url =>
      match clone_repo env git_url s with
      | (.error e, s') => (.error e, s')
      | (.ok repo_path, s') =>
        match resolve_tag (env.gitTagList repo_path) oldV with
        | none => (.ok none, s')
        | some old_tag =>
          match resolve_tag (env.gitTagList repo_path) newV with
          | none => (.ok none, s')
          | some new_tag =>
            match env.gitDiff repo_path old_tag new_tag with
            | .error e => (.error e, s')
            | .ok diff => (.ok (some diff), s')

/-- `_try_git_strategy`: `None` for non-update changes; otherwise run the
body and convert any exception into `None` (the `except Exception` catch-all
at `retriever.py` lines 92–94). -/
def try_git_strategy (env : Env) (c : DependencyChange) (s : HRState) :
    Option String × HRState :=
  match c.old_version, c.new_version with
  | some oldV, some newV =>
    match git_strategy_body env c.name oldV newV s with
    | (.ok r, s') => (r, s')
    | (.error _, s') => (none, s')
  | _, _ => (none, s)

/-- The `for url in metadata.urls` loop of `_download_artifact`: the first
`.tar.gz` URL breaks the loop; the first `.whl` URL seen before that is
remembered. Returns `(sdist_url, wheel_url)`. -/
def find_artifact_urls : List String → Option String → Option String × Option String
  | [], wheel_url => (none, wheel_url)
  | url :: rest, wheel_url =>
    if pyEndsWith url ".tar.gz" then (some url, wheel_url)
    else if pyEndsWith url ".whl" && wheel_url.isNone then
      find_artifact_urls rest (some url)
    else find_artifact_urls rest wheel_url

/-- `_download_artifact`: fetch metadata, choose sdist over wheel (raising
`ValueError` if neither exists), make and track a temp directory, download,
extract by suffix, and pick the effective root (the single extracted
directory if there is exactly one, else the extraction directory). -/
def download_artifact (env : Env) (name version : String) (s : HRState) :
    Except PyErr String × HRState :=
  match env.fetchMetadata name version with
  | .error e => (.error e, s)
  | .ok metadata =>
    let (sdist_url, wheel_url) := find_artifact_urls metadata.urls none
    match sdist_url.orElse (fun _ => wheel_url) with
    | none => (.error (.valueError s!"No suitable artifact found for {name} {version}"), s)
    | some download_url =>
      let (temp_dir, s₁) := mkdtemp "depdiff_artifact_" s
      let s₂ := { s₁ with temp_dirs := insert temp_dir s₁.temp_dirs }
      match env.httpDownload download_url with
      | .error e => (.error e, s₂)
      | .ok _ =>
        let extractResult : Except PyErr Unit :=
          if pyEndsWith download_url ".tar.gz" then env.extractTar temp_dir
          else if pyEndsWith download_url ".whl" then env.extractZip temp_dir
          else .ok ()
        match extractResult with
        | .error e => (.error e, s₂)
        | .ok _ =>
          match env.extractedRootDirs temp_dir with
          | [d] => (.ok d, s₂)
          | _ => (.ok temp_dir, s₂)

/-- `_artifact_fallback`: raise `ValueError` for non-update changes;
otherwise download both artifacts and compare the two directories with the
shared `SourceComparator`. -/
def artifact_fallback (env : Env) (c : DependencyChange) (s : HRState) :
    Except PyErr String × HRState :=
  match c.old_version, c.new_version with
  | some oldV, some newV =>
    match download_artifact env c.name oldV s with
    | (.error e, s') => (.error e, s')
    | (.ok old_dir, s') =>
      match download_artifact env c.name newV s' with
      | (.error e, s'') => (.error e, s'')
      | (.ok new_dir, s'') =>
        (.ok (compare_directories env.ud (env.dirOf old_dir) (env.dirOf new_dir)), s'')
  | _, _ => (.error (.valueError "Artifact fallback only supports version updates"), s)

/-- `get_diff`: try the Git strategy first; on `None` fall back to the
artifact comparison. -/
def get_diff (env : Env) (c : DependencyChange) (s : HRState) :
    Except PyErr String × HRState :=
  match try_git_strategy env c s with
  | (some git_diff, s') => (.ok git_diff, s')
  | (none, s') => artifact_fallback env c s'

/-! ### `ParallelRetriever` (`src/src/depdiff/parallel.py`)

The thread-pool tasks are independent of each other: each builds a fresh
`HybridRetriever` (fresh `_temp_dirs` set) and the per-future results are
keyed by package name, so the run is modelled by evaluating each task's
result in isolation. Python `dict` assignment is modelled by `dict_insert`
over an insertion-ordered association list. -/

/-- Python `d[k] = v` on an insertion-ordered dict. -/
def dict_insert {α : Type} (d : List (String × α)) (k : String) (v : α) :
    List (String × α) :=
  if d.any (fun kv => kv.1 = k) then
    d.map (fun kv => if kv.1 = k then (k, v) else kv)
  else d ++ [(k, v)]

/-- The keyword parameters `HybridRetriever.__init__` accepts
(`retriever.py` line 20): only `comparator`. -/
def hybrid_retriever_init_params : List String := ["comparator"]

/-- The keyword arguments `_process_single_package` passes to the
`HybridRetriever` constructor (`parallel.py` line 100). -/
def process_single_package_kwargs : List String := ["comparator", "temp_dir_tracker"]

/-- Python call semantics: a keyword argument whose name is not among the
callee's parameters raises `TypeError` before the body runs. -/
def check_kwargs (params kwargs : List String) : Except PyErr Unit :=
  match kwargs.find? (fun k => !(params.contains k)) with
  | some k => .error (.typeError s!"__init__() got an unexpected keyword argument \x27{k}\x27")
  | none => .ok ()

/-- The message of the `TypeError` every worker task raises. -/
def temp_dir_tracker_type_error : PyErr :=
  .typeError "__init__() got an unexpected keyword argument \x27temp_dir_tracker\x27"

/-- `_process_single_package`: construct a fresh `HybridRetriever` with the
keyword arguments of `parallel.py` line 100 (raising `TypeError` when one
is not accepted), then run `get_diff` on the fresh retriever. Returns the
task's result together with the retriever state it left behind. -/
def process_single_package (env : Env) (c : DependencyChange) :
    Except PyErr String × HRState :=
  match check_kwargs hybrid_retriever_init_params process_single_package_kwargs with
  | .error e => (.error e, hrInit)
  | .ok _ => get_diff env c hrInit

/-- The state of one `ParallelRetriever`: its lock-protected `_temp_dirs`
registry (the lock serialises access; the contents are what matters here). -/
structure PRState where
  temp_dirs : Finset String
deriving DecidableEq

/-- A fresh `ParallelRetriever` registry. -/
def psInit : PRState := ⟨∅⟩

/-- `ParallelRetriever.track_temp_dir`: add a path to the shared registry
under the lock. -/
def track_temp_dir (path : String) (ps : PRState) : PRState :=
  { ps with temp_dirs := insert path ps.temp_dirs }

/-- The `except` conversion in the result-collection loop of
`process_changes_parallel`: a future's value on success, `f"Error: {e}"` on
any exception. -/
def collect_result : Except PyErr String → String
  | .ok diff => diff
  | .error e => "Error: " ++ e.message

/-- `process_changes_parallel`: submit one task per change into a dict of
futures keyed by `change.name` (a later duplicate name overwrites the
earlier future), then walk the futures dict building the result dict,
storing the diff on success and `f"Error: {e}"` on any exception. The
method never touches the orchestrator's `_temp_dirs` registry, which is
made explicit by threading `ps` through unchanged. -/
def process_changes_parallel (env : Env) (changes : List DependencyChange)
    (ps : PRState) : List (String × String) × PRState :=
  let futures := changes.foldl
    (fun fs c => dict_insert fs c.name (process_single_package env c).1) []
  let diffs := futures.foldl
    (fun d kv =>
      match kv.2 with
      | .ok diff => dict_insert d kv.1 diff
      | .error e => dict_insert d kv.1 ("Error: " ++ e.message)) []
  (diffs, ps)

/-! ### Concrete sample data for witnesses and counterexamples -/

/-- A directory with no files. -/
def emptyDir : PyDir := ⟨∅, fun _ => .unreadable⟩

/-- A concrete stand-in for `difflib.unified_diff` in closed evaluations:
empty on equal line sequences (difflib's documented behaviour), headers
plus all lines otherwise. -/
def udSample : UnifiedDiffFn := fun a b f t =>
  if a = b then []
  else s!"--- {f}" :: s!"+++ {t}" :: "@@" ::
    (a.map (fun l => "-" ++ l) ++ b.map (fun l => "+" ++ l))

/-- A concrete environment: every package has a GitHub homepage and one
sdist URL, cloning and diffing succeed, both sample versions exist as bare
tags — except package `beta`, whose metadata fetch raises. -/
def gitEnv : Env where
  fetchMetadata := fun name _version =>
    if name = "beta" then .error (.requestError "metadata boom")
    else .ok ⟨⟨"https://github.com/example/pkg"⟩, ["https://files.example/pkg-1.tar.gz"]⟩
  gitClone := fun _ => .ok ()
  gitTagList := fun _ => some "1.0.0\n2.0.0"
  gitDiff := fun _ oldTag newTag => .ok s!"diff {oldTag}..{newTag}"
  httpDownload := fun _ => .ok ()
  extractTar := fun _ => .ok ()
  extractZip := fun _ => .ok ()
  extractedRootDirs := fun _ => []
  dirOf := fun _ => emptyDir
  ud := udSample

/-- Like `gitEnv` for every package, except that `git diff` itself raises
`CalledProcessError`. -/
def diffFailEnv : Env :=
  { gitEnv with
    fetchMetadata := fun _name _version =>
      .ok ⟨⟨"https://github.com/example/pkg"⟩, ["https://files.example/pkg-1.tar.gz"]⟩
    gitDiff := fun _ _ _ => .error (.calledProcessError "git diff failed") }

/-- A concrete update change. -/
def updAlpha : DependencyChange := ⟨"alpha", some "1.0.0", some "2.0.0"⟩

/-- A concrete update change whose metadata fetch fails in `gitEnv`. -/
def updBeta : DependencyChange := ⟨"beta", some "1.0.0", some "2.0.0"⟩

/-- A concrete update change. -/
def updGamma : DependencyChange := ⟨"gamma", some "1.0.0", some "2.0.0"⟩

/-! ### Helper lemmas -/

/-- A `diff_lines`-style fold that either skips an element or extends the
accumulator equals the accumulator followed by the concatenation of the
per-element fragments. -/
theorem foldl_skip_extend {α β : Type} (cond : α → Bool) (f : α → List β) :
    ∀ (l : List α) (acc : List β),
      l.foldl (fun a p => if cond p then a else a ++ f p) acc
        = acc ++ l.flatMap (fun p => if cond p then [] else f p)
  | [], acc => by simp
  | p :: l, acc => by
    rcases h : cond p with _ | _ <;>
      simp [h, foldl_skip_extend cond f l, List.append_assoc]

/-- A concatenation of everywhere-empty fragments is empty. -/
theorem flatMap_eq_nil_of {α β : Type} (f : α → List β) :
    ∀ (l : List α), (∀ p ∈ l, f p = []) → l.flatMap f = []
  | [], _ => by simp
  | p :: l, h => by
    have ht : l.flatMap f = [] :=
      flatMap_eq_nil_of f l (fun q hq => h q (List.mem_cons_of_mem p hq))
    simp [h p (List.mem_cons_self p l), ht]

/-- Comparing a directory against itself yields the empty string, for any
line-diff routine that produces no output on identical line sequences
(difflib's documented behaviour). -/
theorem compare_directories_self (ud : UnifiedDiffFn)
    (h : ∀ a f t, ud a a f t = []) (d : PyDir) :
    compare_directories ud d d = "" := by
  have hmod : ∀ p, (if is_binary (d.content p) || is_binary (d.content p) then []
      else generate_file_diff ud p (d.content p) (d.content p)) = ([] : List String) := by
    intro p
    rcases hc : d.content p with _ | ⟨hasNull, fileLines⟩
    · simp [is_binary]
    · rcases hasNull with _ | _
      · simp [is_binary, generate_file_diff, h]
      · simp [is_binary]
  simp only [compare_directories, Finset.sdiff_self, Finset.inter_self, sortedPaths,
    Finset.sort_empty, List.foldl_nil, foldl_skip_extend]
  rw [flatMap_eq_nil_of _ _ (fun p _ => hmod p)]
  rfl

/-- A one-file sample directory for closed instantiations. -/
def sampleDir : PyDir := ⟨{"hello.txt"}, fun _ => .readable false ["Hello\n"]⟩

/-! ### Claims -/

/-- C9: `SourceComparator.compare_directories` emits its fragments in the
fixed order deletions, then additions, then modifications, the paths inside
each group processed in sorted (lexicographic) order, and joins the
fragments with newlines. Determinism (two runs over the same inputs are
byte-for-byte identical) is inherent in the embedding: the function is
pure. -/
theorem compare_directories_ordered (ud : UnifiedDiffFn) (old_dir new_dir : PyDir) :
    compare_directories ud old_dir new_dir =
      String.intercalate "\n"
        ((sortedPaths (old_dir.files \ new_dir.files)).flatMap
            (fun p => if is_binary (old_dir.content p) then []
              else generate_deletion_diff p (old_dir.content p))
          ++ (sortedPaths (new_dir.files \ old_dir.files)).flatMap
            (fun p => if is_binary (new_dir.content p) then []
              else generate_addition_diff p (new_dir.content p))
          ++ (sortedPaths (old_dir.files ∩ new_dir.files)).flatMap
            (fun p => if is_binary (old_dir.content p) || is_binary (new_dir.content p) then []
              else generate_file_diff ud p (old_dir.content p) (new_dir.content p))) ∧
    List.Sorted (· ≤ ·) (sortedPaths (old_dir.files \ new_dir.files)) ∧
    List.Sorted (· ≤ ·) (sortedPaths (new_dir.files \ old_dir.files)) ∧
    List.Sorted (· ≤ ·) (sortedPaths (old_dir.files ∩ new_dir.files)) := by
  refine ⟨?_, Finset.sort_sorted _ _, Finset.sort_sorted _ _, Finset.sort_sorted _ _⟩
  simp only [compare_directories, foldl_skip_extend, List.nil_append, List.append_assoc]

/-- C10: comparing a directory against itself yields the empty string, for
any line-diff routine that (like `difflib.unified_diff`) produces no output
on identical line sequences. -/
theorem compare_directories_self_empty (ud : UnifiedDiffFn)
    (h : ∀ a f t, ud a a f t = []) (d : PyDir) :
    compare_directories ud d d = "" :=
  compare_directories_self ud h d

/-- Witness for C10 at a concrete diff routine and directory. -/
theorem compare_directories_self_empty_witness :
    (∀ a f t, udSample a a f t = []) ∧
      compare_directories udSample sampleDir sampleDir = "" :=
  ⟨fun a f t => by simp [udSample],
   compare_directories_self_empty udSample (fun a f t => by simp [udSample]) sampleDir⟩

/-- C4: for an update change, whatever the version-control strategy body
does — succeed with a diff, fall through with no result, or raise at any
step (metadata fetch, URL extraction, clone, tag resolution, diff command)
— `get_diff` either returns the version-control diff or attempts the
artifact fallback; an exception from the version-control path never
propagates to the caller. -/
theorem get_diff_vcs_error_falls_back (env : Env) (name oldV newV : String) (s : HRState) :
    get_diff env ⟨name, some oldV, some newV⟩ s =
      match git_strategy_body env name oldV newV s with
      | (.ok (some d), s') => (.ok d, s')
      | (.ok none, s') => artifact_fallback env ⟨name, some oldV, some newV⟩ s'
      | (.error _, s') => artifact_fallback env ⟨name, some oldV, some newV⟩ s' := by
  rcases hb : git_strategy_body env name oldV newV s with ⟨r, s'⟩
  rcases r with e | r
  · simp [get_diff, try_git_strategy, hb]
  · rcases r with _ | d <;> simp [get_diff, try_git_strategy, hb]

/-- C5 counterexample: a concrete run where the repository was cloned, both
version strings resolved to references, and the diff command failed — yet
`get_diff` returns the artifact fallback's diff (here `.ok ""`) instead of
propagating the diff failure as a hard retrieval error. -/
theorem git_diff_failure_does_not_propagate :
    resolve_tag (diffFailEnv.gitTagList "depdiff_git_0") "1.0.0" = some "1.0.0" ∧
    resolve_tag (diffFailEnv.gitTagList "depdiff_git_0") "2.0.0" = some "2.0.0" ∧
    diffFailEnv.gitDiff "depdiff_git_0" "1.0.0" "2.0.0"
      = .error (.calledProcessError "git diff failed") ∧
    (get_diff diffFailEnv updAlpha hrInit).1 = .ok "" := by
  refine ⟨rfl, rfl, rfl, ?_⟩
  have h : (get_diff diffFailEnv updAlpha hrInit).1
      = .ok (compare_directories udSample emptyDir emptyDir) := rfl
  rw [h, compare_directories_self udSample (fun a f t => by simp [udSample]) emptyDir]

/-- C5 amended: a failure of the diff command between two resolved
references is caught by the catch-all handler of `_try_git_strategy` like
any other version-control failure, and `get_diff` proceeds with the
artifact fallback instead of propagating it. -/
theorem git_diff_failure_falls_back (env : Env) (name oldV newV : String)
    (s : HRState) (md : PackageMetadata) (git_url repo_path : String) (s' : HRState)
    (oldTag newTag : String) (e : PyErr)
    (hmd : env.fetchMetadata name newV = .ok md)
    (hurl : extract_git_url md = some git_url)
    (hclone : clone_repo env git_url s = (.ok repo_path, s'))
    (holdTag : resolve_tag (env.gitTagList repo_path) oldV = some oldTag)
    (hnewTag : resolve_tag (env.gitTagList repo_path) newV = some newTag)
    (hdiff : env.gitDiff repo_path oldTag newTag = .error e) :
    get_diff env ⟨name, some oldV, some newV⟩ s
      = artifact_fallback env ⟨name, some oldV, some newV⟩ s' := by
  simp [get_diff, try_git_strategy, git_strategy_body, hmd, hurl, hclone,
    holdTag, hnewTag, hdiff]

/-- Witness for the amended C5 at a concrete environment. -/
theorem git_diff_failure_falls_back_witness :
    diffFailEnv.gitDiff "depdiff_git_0" "1.0.0" "2.0.0"
      = .error (.calledProcessError "git diff failed") ∧
    get_diff diffFailEnv ⟨"alpha", some "1.0.0", some "2.0.0"⟩ hrInit
      = artifact_fallback diffFailEnv ⟨"alpha", some "1.0.0", some "2.0.0"⟩
          ⟨{"depdiff_git_0"}, 1⟩ :=
  ⟨rfl,
   git_diff_failure_falls_back diffFailEnv "alpha" "1.0.0" "2.0.0" hrInit
     ⟨⟨"https://github.com/example/pkg"⟩, ["https://files.example/pkg-1.tar.gz"]⟩
     "https://github.com/example/pkg.git" "depdiff_git_0" ⟨{"depdiff_git_0"}, 1⟩
     "1.0.0" "2.0.0" (.calledProcessError "git diff failed")
     rfl rfl rfl rfl rfl rfl⟩

/-- C7: for an addition (old version absent) or a removal (new version
absent), `get_diff` raises: the Git strategy declines non-updates, and the
artifact fallback raises `ValueError` for them, so the change is rejected
explicitly rather than silently skipped. -/
theorem get_diff_rejects_non_update (env : Env) (c : DependencyChange) (s : HRState)
    (h : c.is_addition = true ∨ c.is_removal = true) :
    (get_diff env c s).1
      = .error (.valueError "Artifact fallback only supports version updates") := by
  rcases c with ⟨n, o, v⟩
  rcases o with _ | oldV <;> rcases v with _ | newV <;>
    simp_all [DependencyChange.is_addition, DependencyChange.is_removal,
      get_diff, try_git_strategy, artifact_fallback]

/-- Witness for C7 at a concrete addition change. -/
theorem get_diff_rejects_non_update_witness :
    (DependencyChange.is_addition ⟨"pkg", none, some "1.0.0"⟩ = true ∨
      DependencyChange.is_removal ⟨"pkg", none, some "1.0.0"⟩ = true) ∧
    (get_diff gitEnv ⟨"pkg", none, some "1.0.0"⟩ hrInit).1
      = .error (.valueError "Artifact fallback only supports version updates") :=
  ⟨Or.inl rfl,
   get_diff_rejects_non_update gitEnv ⟨"pkg", none, some "1.0.0"⟩ hrInit (Or.inl rfl)⟩

/-- C8: tag resolution returns the version itself when it is among the
listed references (even when the `v`-prefixed form is also present),
otherwise the `v`-prefixed version when that is listed, otherwise `none`;
and an error while listing references (`CalledProcessError` from the tag
listing, the exception a failing `git tag --list` raises) yields `none`
rather than propagating. -/
theorem resolve_tag_policy (stdout version : String) :
    (version ∈ tagsOf stdout → resolve_tag (some stdout) version = some version) ∧
    (version ∉ tagsOf stdout → ("v" ++ version) ∈ tagsOf stdout →
      resolve_tag (some stdout) version = some ("v" ++ version)) ∧
    (version ∉ tagsOf stdout → ("v" ++ version) ∉ tagsOf stdout →
      resolve_tag (some stdout) version = none) ∧
    resolve_tag none version = none := by
  refine ⟨fun h1 => ?_, fun h1 h2 => ?_, fun h1 h2 => ?_, rfl⟩
  · simp [resolve_tag, h1]
  · simp [resolve_tag, h1, h2]
  · simp [resolve_tag, h1, h2]

/-- Witness for C8 on the spec's sample tag sets, the exact-match-preferred
pair included. -/
theorem resolve_tag_policy_witness :
    "1.0.0" ∈ tagsOf "1.0.0\nv2.0.0\n3.0.0\nv3.0.0" ∧
    resolve_tag (some "1.0.0\nv2.0.0\n3.0.0\nv3.0.0") "1.0.0" = some "1.0.0" ∧
    resolve_tag (some "1.0.0\nv2.0.0\n3.0.0\nv3.0.0") "2.0.0" = some "v2.0.0" ∧
    resolve_tag (some "1.0.0\nv2.0.0\n3.0.0\nv3.0.0") "9.9.9" = none ∧
    resolve_tag (some "1.0.0\nv2.0.0\n3.0.0\nv3.0.0") "3.0.0" = some "3.0.0" ∧
    resolve_tag none "9.9.9" = none :=
  ⟨by decide,
   (resolve_tag_policy "1.0.0\nv2.0.0\n3.0.0\nv3.0.0" "1.0.0").1 (by decide),
   (resolve_tag_policy "1.0.0\nv2.0.0\n3.0.0\nv3.0.0" "2.0.0").2.1 (by decide) (by decide),
   (resolve_tag_policy "1.0.0\nv2.0.0\n3.0.0\nv3.0.0" "9.9.9").2.2.1 (by decide) (by decide),
   (resolve_tag_policy "1.0.0\nv2.0.0\n3.0.0\nv3.0.0" "3.0.0").1 (by decide),
   (resolve_tag_policy "1.0.0\nv2.0.0\n3.0.0\nv3.0.0" "9.9.9").2.2.2⟩

/-! ### Dict lemmas for the orchestrator claims -/

/-- Inserting a key no entry has appends. -/
theorem dict_insert_fresh {β : Type} (d : List (String × β)) (k : String) (v : β)
    (h : ∀ kv ∈ d, kv.1 ≠ k) : dict_insert d k v = d ++ [(k, v)] := by
  have hany : d.any (fun kv => kv.1 = k) = false := by
    rw [List.any_eq_false]
    intro kv hkv
    simpa using h kv hkv
  simp [dict_insert, hany]

/-- Every entry of `dict_insert d k v` is `(k, v)` or an entry of `d`. -/
theorem mem_dict_insert {β : Type} {d : List (String × β)} {k : String} {v : β}
    {kv : String × β} (h : kv ∈ dict_insert d k v) : kv = (k, v) ∨ kv ∈ d := by
  unfold dict_insert at h
  by_cases hc : d.any (fun kv => kv.1 = k) = true
  · rw [if_pos hc] at h
    obtain ⟨kv', hkv', heq⟩ := List.mem_map.mp h
    by_cases h1 : kv'.1 = k
    · rw [if_pos h1] at heq
      exact Or.inl heq.symm
    · rw [if_neg h1] at heq
      exact Or.inr (heq ▸ hkv')
  · rw [if_neg hc] at h
    rcases List.mem_append.mp h with h | h
    · exact Or.inr h
    · exact Or.inl (List.mem_singleton.mp h)

/-- A fold of `dict_insert`s whose keys are pairwise distinct and absent
from the accumulator appends one entry per element, in order. -/
theorem foldl_dict_insert_eq {γ β : Type} (key : γ → String) (val : γ → β) :
    ∀ (cs : List γ) (acc : List (String × β)),
      (∀ c ∈ cs, ∀ kv ∈ acc, kv.1 ≠ key c) →
      (cs.map key).Nodup →
      cs.foldl (fun fs c => dict_insert fs (key c) (val c)) acc
        = acc ++ cs.map (fun c => (key c, val c))
  | [], acc, _, _ => by simp
  | c :: cs, acc, hfresh, hnodup => by
    have hstep : dict_insert acc (key c) (val c) = acc ++ [(key c, val c)] :=
      dict_insert_fresh acc (key c) (val c)
        (fun kv hkv => hfresh c (List.mem_cons_self c cs) kv hkv)
    have hnodup' : key c ∉ cs.map key ∧ (cs.map key).Nodup := by
      rw [List.map_cons, List.nodup_cons] at hnodup
      exact hnodup
    have hrec := foldl_dict_insert_eq key val cs (acc ++ [(key c, val c)])
      (by
        intro c' hc' kv hkv
        rcases List.mem_append.mp hkv with hkv | hkv
        · exact hfresh c' (List.mem_cons_of_mem c hc') kv hkv
        · have hkv1 : kv.1 = key c := by rw [List.mem_singleton.mp hkv]
          intro hcontra
          have hkeys : key c = key c' := by rw [← hkv1, hcontra]
          exact hnodup'.1 (by rw [hkeys]; exact List.mem_map_of_mem key hc'))
      hnodup'.2
    simp only [List.foldl_cons, hstep, hrec, List.append_assoc, List.singleton_append,
      List.map_cons]

/-- Every value a fold of `dict_insert`s can leave in the dict satisfies
any property satisfied by the accumulator's values and the inserted
values. -/
theorem foldl_dict_insert_values {γ β : Type} (P : β → Prop) (key : γ → String) (val : γ → β) :
    ∀ (cs : List γ) (acc : List (String × β)),
      (∀ kv ∈ acc, P kv.2) → (∀ c ∈ cs, P (val c)) →
      ∀ kv ∈ cs.foldl (fun fs c => dict_insert fs (key c) (val c)) acc, P kv.2
  | [], acc, hacc, _, kv, hkv => hacc kv hkv
  | c :: cs, acc, hacc, hval, kv, hkv => by
    refine foldl_dict_insert_values P key val cs (dict_insert acc (key c) (val c))
      (fun kv' hkv' => ?_) (fun c' hc' => hval c' (List.mem_cons_of_mem c hc')) kv hkv
    rcases mem_dict_insert hkv' with h | h
    · rw [h]
      exact hval c (List.mem_cons_self c cs)
    · exact hacc kv' h

/-- The result-collection loop body of `process_changes_parallel` is a
`dict_insert` of `collect_result`. -/
theorem collect_loop_eq :
    (fun (d : List (String × String)) (kv : String × Except PyErr String) =>
        match kv.2 with
        | .ok diff => dict_insert d kv.1 diff
        | .error e => dict_insert d kv.1 ("Error: " ++ e.message))
      = fun d kv => dict_insert d kv.1 (collect_result kv.2) := by
  funext d kv
  rcases kv with ⟨k, exc⟩
  rcases exc with e | diff <;> rfl

/-- The error string every orchestrator task's result slot receives. -/
def tracker_error_string : String :=
  "Error: __init__() got an unexpected keyword argument \x27temp_dir_tracker\x27"

/-- The result dict of `process_changes_parallel`, written as the collection
fold over the futures fold (definitional unfolding). -/
theorem process_changes_parallel_def (env : Env) (changes : List DependencyChange)
    (ps : PRState) :
    (process_changes_parallel env changes ps).1
      = (changes.foldl
            (fun fs c => dict_insert fs c.name (process_single_package env c).1) []).foldl
          (fun d kv =>
            match kv.2 with
            | .ok diff => dict_insert d kv.1 diff
            | .error e => dict_insert d kv.1 ("Error: " ++ e.message)) [] := rfl

/-- C1: for changes with pairwise-distinct names, each an update, the
returned mapping has exactly one entry per package name — the entry being
the task's diff text on success and the error text `f"Error: {e}"` on
failure (`collect_result`) — and its key list is exactly the list of
package names, so no name is absent. -/
theorem process_changes_parallel_complete (env : Env) (changes : List DependencyChange)
    (ps : PRState)
    (hnodup : (changes.map (fun c => c.name)).Nodup)
    (_hupd : ∀ c ∈ changes, c.is_update = true) :
    (process_changes_parallel env changes ps).1
        = changes.map (fun c => (c.name, collect_result (process_single_package env c).1)) ∧
      (process_changes_parallel env changes ps).1.map Prod.fst
        = changes.map (fun c => c.name) := by
  have hfut : changes.foldl
        (fun fs c => dict_insert fs c.name (process_single_package env c).1) []
      = changes.map (fun c => (c.name, (process_single_package env c).1)) := by
    have h := foldl_dict_insert_eq (fun c : DependencyChange => c.name)
      (fun c => (process_single_package env c).1) changes []
      (fun c _ kv hkv => absurd hkv (List.not_mem_nil kv)) hnodup
    simpa using h
  have hsnd := foldl_dict_insert_eq (fun kv : String × Except PyErr String => kv.1)
    (fun kv => collect_result kv.2)
    (changes.map (fun c => (c.name, (process_single_package env c).1))) []
    (fun c _ kv hkv => absurd hkv (List.not_mem_nil kv))
    (by simpa [List.map_map, Function.comp] using hnodup)
  have hmain : (process_changes_parallel env changes ps).1
      = changes.map (fun c => (c.name, collect_result (process_single_package env c).1)) := by
    rw [process_changes_parallel_def, collect_loop_eq, hfut]
    simpa [List.map_map, Function.comp] using hsnd
  exact ⟨hmain, by rw [hmain]; simp [List.map_map, Function.comp]⟩

/-- Witness for C1 at two concrete distinct update changes. -/
theorem process_changes_parallel_complete_witness :
    ([updAlpha, updGamma].map (fun c => c.name)).Nodup ∧
    (∀ c ∈ [updAlpha, updGamma], c.is_update = true) ∧
    (process_changes_parallel gitEnv [updAlpha, updGamma] psInit).1
      = [updAlpha, updGamma].map
          (fun c => (c.name, collect_result (process_single_package gitEnv c).1)) :=
  ⟨by decide, by decide,
   (process_changes_parallel_complete gitEnv [updAlpha, updGamma] psInit
     (by decide) (by decide)).1⟩

/-- C3: every worker task constructs `HybridRetriever` with the
`temp_dir_tracker` keyword argument that `HybridRetriever.__init__` does not
accept, so every task raises `TypeError` before any retrieval work, and
every value of the returned mapping is that error string — never diff
text. -/
theorem all_results_type_error (env : Env) (changes : List DependencyChange) (ps : PRState) :
    (∀ c : DependencyChange,
        (process_single_package env c).1 = .error temp_dir_tracker_type_error) ∧
    ∀ kv ∈ (process_changes_parallel env changes ps).1,
      kv.2 = "Error: " ++ temp_dir_tracker_type_error.message := by
  have hpsp : ∀ c : DependencyChange,
      (process_single_package env c).1 = .error temp_dir_tracker_type_error :=
    fun _ => rfl
  refine ⟨hpsp, fun kv hkv => ?_⟩
  rw [process_changes_parallel_def, collect_loop_eq] at hkv
  have hfutvals := foldl_dict_insert_values
    (fun v => v = Except.error temp_dir_tracker_type_error)
    (fun c : DependencyChange => c.name) (fun c => (process_single_package env c).1)
    changes [] (fun kv' hkv' => absurd hkv' (List.not_mem_nil kv')) (fun c _ => hpsp c)
  exact foldl_dict_insert_values
    (fun v => v = "Error: " ++ temp_dir_tracker_type_error.message)
    (fun kv : String × Except PyErr String => kv.1) (fun kv => collect_result kv.2)
    (changes.foldl (fun fs c => dict_insert fs c.name (process_single_package env c).1) [])
    [] (fun kv' hkv' => absurd hkv' (List.not_mem_nil kv'))
    (fun kv' hkv' => by
      have h2 : kv'.2 = Except.error temp_dir_tracker_type_error :=
        hfutvals kv' (by simpa using hkv')
      show collect_result kv'.2 = "Error: " ++ temp_dir_tracker_type_error.message
      rw [h2]
      rfl)
    kv hkv

/-- Witness for C3 at a concrete run. -/
theorem all_results_type_error_witness :
    ("alpha", tracker_error_string) ∈ (process_changes_parallel gitEnv [updAlpha] psInit).1 ∧
    tracker_error_string = "Error: " ++ temp_dir_tracker_type_error.message := by
  have hmem : ("alpha", tracker_error_string)
      ∈ (process_changes_parallel gitEnv [updAlpha] psInit).1 := by
    have h : (process_changes_parallel gitEnv [updAlpha] psInit).1
        = [("alpha", tracker_error_string)] := rfl
    rw [h]
    exact List.mem_singleton_self _
  exact ⟨hmem,
    (all_results_type_error gitEnv [updAlpha] psInit).2 ("alpha", tracker_error_string) hmem⟩

/-- C2 divergence, evaluated: three update changes where the middle one's
retrieval would raise (its metadata fetch fails) and the outer two would
succeed with diff text when `get_diff` runs — yet through the orchestrator
all three result slots hold the constructor `TypeError` text, not diff
text. -/
theorem middle_failure_divergence :
    (process_changes_parallel gitEnv [updAlpha, updBeta, updGamma] psInit).1
        = [("alpha", tracker_error_string), ("beta", tracker_error_string),
           ("gamma", tracker_error_string)] ∧
    (get_diff gitEnv updAlpha hrInit).1 = .ok "diff 1.0.0..2.0.0" ∧
    (get_diff gitEnv updBeta hrInit).1 = .error (.requestError "metadata boom") ∧
    (get_diff gitEnv updGamma hrInit).1 = .ok "diff 1.0.0..2.0.0" :=
  ⟨rfl, rfl, rfl, rfl⟩

/-- C6 divergence, evaluated: `process_changes_parallel` never writes the
orchestrator's shared `_temp_dirs` registry (no caller of `track_temp_dir`
exists), every task leaves the fresh-retriever state untouched (it raises
`TypeError` before creating anything), while a directly-run `get_diff`
does create a clone directory — registered only in the `HybridRetriever`'s
own private set, invisible to `ParallelRetriever.cleanup`. -/
theorem temp_dirs_not_shared :
    (∀ (env : Env) (changes : List DependencyChange) (ps : PRState),
        (process_changes_parallel env changes ps).2 = ps) ∧
    (∀ (env : Env) (c : DependencyChange), (process_single_package env c).2 = hrInit) ∧
    (get_diff gitEnv updAlpha hrInit).2.temp_dirs = {"depdiff_git_0"} :=
  ⟨fun _ _ _ => rfl, fun _ _ => rfl, rfl⟩

end Depdiff
